import Mathlib

/-!
Verification development for the `github-coverage-reporter` repository.

The JavaScript sources are shallowly embedded:

* JS numbers that hold coverage percentages are modelled by `Rat`
  (fractional percentages such as `84.5` occur); a JS value that may be
  `undefined`/`null` is modelled by `Option Rat` with `none` for the
  absent value.
* The JS idiom `x || d` on numbers treats `undefined`, `null` and `0`
  as falsy; it is modelled by `jsOr`.
* JS objects used as string-keyed maps are modelled as functions
  `String → Option _` (with `none` for an absent key), which is
  extensionally faithful to property lookup returning `undefined`.
* A comparison against a `NaN` operand (which arises when arithmetic is
  done on an `undefined` map entry) is `false` in JS; where the source
  can produce this, the embedding takes `Option Rat` operands and
  returns `false` when an operand is `none`.
-/

/-- JS `v || d` for a numeric `v` that may be `undefined`/`null`:
`undefined`, `null` and `0` are falsy and yield the default `d`. -/
def jsOr (v : Option Rat) (d : Rat) : Rat :=
  match v with
  | none => d
  | some x => if x = 0 then d else x

/-- Render a rational as JS renders the corresponding number in a template
literal, for the terminating decimals that occur as coverage values:
integers print without a decimal point, other values print their (exact)
decimal expansion with trailing zeros trimmed.  Values whose denominator
does not divide `10^6` do not occur in the data of the program; they fall back
to the raw `num/den` rendering. -/
def ratStr (q : Rat) : String :=
  if q.den = 1 then toString q.num
  else if 10 ^ 6 % q.den = 0 then
    let sgn := if q.num < 0 then "-" else ""
    let scaled : Nat := q.num.natAbs * (10 ^ 6 / q.den)
    let ip := scaled / 10 ^ 6
    let fp := scaled % 10 ^ 6
    let fpRaw := toString fp
    let fpPadded := String.mk (List.replicate (6 - fpRaw.length) '0') ++ fpRaw
    let fpTrimmed := String.mk ((fpPadded.data.reverse.dropWhile (· = '0')).reverse)
    sgn ++ toString ip ++ "." ++ fpTrimmed
  else toString q

/-- JS `Number.prototype.toFixed(2)` for the exact decimal values the
comment generator feeds it: two digits after the point, magnitude rounded
half away from zero, a leading `-` on negative values. -/
def toFixed2 (q : Rat) : String :=
  let sgn := if q < 0 then "-" else ""
  let n : Nat := (Int.floor (|q| * 100 + 1 / 2)).toNat
  let frac := n % 100
  let fracStr := (if frac < 10 then "0" else "") ++ toString frac
  sgn ++ toString (n / 100) ++ "." ++ fracStr

/-- JS `type.charAt(0).toUpperCase() + type.slice(1)`. -/
def capitalize (s : String) : String :=
  match s.data with
  | [] => ""
  | c :: rest => String.mk (c.toUpper :: rest)

/-- The `{pass, description, context}` object posted as a GitHub status. -/
structure StatusDescriptor where
  pass : Bool
  description : String
  context : String
deriving Repr, DecidableEq

/-- The options object accepted by the `CoverageReporter` constructor
(`src/CoverageReporter.js`).  `none` models an absent (`undefined`) or
`null` field; `customThresholds` is a string-keyed object modelled as a
function with `none` for absent keys. -/
structure CROptions where
  backendThreshold : Option Rat := none
  frontendThreshold : Option Rat := none
  lambdaThreshold : Option Rat := none
  maxDiff : Option Rat := none
  customThresholds : String → Option Rat := fun _ => none
  coverageTypes : Option (List String) := none

/-- The options object with every field absent (`new CoverageReporter({})`). -/
def emptyOptions : CROptions := {}

/-- The state of a constructed `CoverageReporter` instance. -/
structure CoverageReporter where
  thresholds : String → Option Rat
  maxDiff : Rat
  coverageTypes : List String

/-- `this.thresholds` as built by the constructor:
`{ backend: options.backendThreshold || 90, frontend: ... || 95,
   lambda: ... || 80, ...options.customThresholds }` —
a key present in `customThresholds` overrides the prepopulated entry. -/
def mkThresholds (o : CROptions) : String → Option Rat := fun t =>
  match o.customThresholds t with
  | some v => some v
  | none =>
    if t = "backend" then some (jsOr o.backendThreshold 90)
    else if t = "frontend" then some (jsOr o.frontendThreshold 95)
    else if t = "lambda" then some (jsOr o.lambdaThreshold 80)
    else none

/-- The current `CoverageReporter` constructor (`src/CoverageReporter.js`):
`this.maxDiff = [null, undefined].includes(options.maxDiff) ? 0 : options.maxDiff`,
so an absent/`null` `maxDiff` becomes `0` and an explicit `0` is kept. -/
def mkCoverageReporter (o : CROptions) : CoverageReporter where
  thresholds := mkThresholds o
  maxDiff := o.maxDiff.getD 0
  coverageTypes := o.coverageTypes.getD ["backend", "frontend"]

/-- The legacy copy of the `CoverageReporter` constructor that ships in the
repository alongside the current one: identical except
`this.maxDiff = options.maxDiff || 1`, so both an absent `maxDiff` and an
explicit `0` resolve to `1`. -/
def mkLegacyCoverageReporter (o : CROptions) : CoverageReporter where
  thresholds := mkThresholds o
  maxDiff := jsOr o.maxDiff 1
  coverageTypes := o.coverageTypes.getD ["backend", "frontend"]

/-- `this.thresholds[coverageType] || 80`, the effective threshold used by
`generateStatusChecks` and the comment table rows: an absent entry and
an entry equal to `0` both fall back to `80`. -/
def thresholdOf (cr : CoverageReporter) (t : String) : Rat :=
  jsOr (cr.thresholds t) 80

/-- `CoverageReporter.generateStatusChecks(coverage, coverageType)`
(`src/CoverageReporter.js`, lines 67–75). -/
def generateStatusChecks (cr : CoverageReporter) (coverage : Rat)
    (coverageType : String) : StatusDescriptor :=
  let threshold := thresholdOf cr coverageType
  { pass := decide (coverage ≥ threshold)
    description := "threshold: " ++ ratStr threshold ++ "% - current: "
      ++ ratStr coverage ++ "%"
    context := "code-coverage-" ++ coverageType }

/-- `CoverageReporter.generateDiffStatusCheck(previous, current, type)`
(`src/CoverageReporter.js`, lines 77–99): `null` when `previous === 0`;
otherwise `pass = (previous - current) <= this.maxDiff` (non-strict). -/
def generateDiffStatusCheck (cr : CoverageReporter)
    (previousCoverage currentCoverage : Rat) (coverageType : String) :
    Option StatusDescriptor :=
  if previousCoverage = 0 then none
  else
    let diffCoverage := previousCoverage - currentCoverage
    let pass := decide (diffCoverage ≤ cr.maxDiff)
    let description :=
      if currentCoverage = previousCoverage then
        "stays the same: " ++ ratStr previousCoverage ++ "% ~ "
          ++ ratStr currentCoverage ++ "%"
      else if currentCoverage > previousCoverage then
        "went up from " ++ ratStr previousCoverage ++ "% to "
          ++ ratStr currentCoverage ++ "%"
      else
        "decreased from " ++ ratStr previousCoverage ++ "% to "
          ++ ratStr currentCoverage ++ "%"
    some { pass := pass, description := description
           context := "code-coverage-" ++ coverageType ++ "-delta" }

/-- A concrete reporter used by witnesses: default thresholds, `maxDiff = 1`. -/
def exReporter : CoverageReporter :=
  mkCoverageReporter { emptyOptions with maxDiff := some 1 }

/-- C9: for every coverage value and type, the threshold status check passes
iff `current ≥ threshold(type)` where the effective threshold falls back to
`80` for a type with no thresholds entry, with the description exactly
`threshold: {threshold}% - current: {current}%` and the context exactly
`code-coverage-{type}`; concretely
`generateStatusCheck(95, "backend")` with a 90 backend threshold yields
`{pass: true, description: "threshold: 90% - current: 95%",
context: "code-coverage-backend"}`. -/
theorem generateStatusChecks_spec (cr : CoverageReporter) (coverage : Rat)
    (t : String) :
    generateStatusChecks cr coverage t =
      { pass := decide (coverage ≥ thresholdOf cr t)
        description := "threshold: " ++ ratStr (thresholdOf cr t)
          ++ "% - current: " ++ ratStr coverage ++ "%"
        context := "code-coverage-" ++ t } ∧
    (cr.thresholds t = none → thresholdOf cr t = 80) ∧
    generateStatusChecks
        (mkCoverageReporter { emptyOptions with backendThreshold := some 90 })
        95 "backend" =
      { pass := true
        description := "threshold: 90% - current: 95%"
        context := "code-coverage-backend" } := by
  refine ⟨rfl, ?_, by decide⟩
  intro h
  simp [thresholdOf, h, jsOr]

/-- Witness for C9 at a concrete instance: the `thresholds` map of a default
reporter has no entry for the unknown type `"custom"`, and the theorem then
evaluates the check there. -/
theorem generateStatusChecks_spec_witness :
    (mkCoverageReporter emptyOptions).thresholds "custom" = none ∧
    ((generateStatusChecks (mkCoverageReporter emptyOptions) 85 "custom" =
      { pass := decide ((85 : Rat) ≥ thresholdOf (mkCoverageReporter emptyOptions) "custom")
        description := "threshold: "
          ++ ratStr (thresholdOf (mkCoverageReporter emptyOptions) "custom")
          ++ "% - current: " ++ ratStr (85 : Rat) ++ "%"
        context := "code-coverage-" ++ "custom" }) ∧
     ((mkCoverageReporter emptyOptions).thresholds "custom" = none →
       thresholdOf (mkCoverageReporter emptyOptions) "custom" = 80) ∧
     generateStatusChecks
        (mkCoverageReporter { emptyOptions with backendThreshold := some 90 })
        95 "backend" =
      { pass := true
        description := "threshold: 90% - current: 95%"
        context := "code-coverage-backend" }) :=
  ⟨by decide, generateStatusChecks_spec (mkCoverageReporter emptyOptions) 85 "custom"⟩

/-- C1: for every `previous > 0`, the delta status check is non-null and its
`pass` field is exactly `(previous - current) ≤ maxDiff` — the comparison is
non-strict, so a regression exactly equal to `maxDiff` passes. -/
theorem generateDiffStatusCheck_pass_iff (cr : CoverageReporter)
    (previous current : Rat) (t : String) (h : 0 < previous) :
    ∃ d, generateDiffStatusCheck cr previous current t = some d ∧
      d.pass = decide (previous - current ≤ cr.maxDiff) := by
  simp only [generateDiffStatusCheck, if_neg h.ne']
  exact ⟨_, rfl, rfl⟩

/-- Witness for C1 at the boundary case: `previous = 85`, `current = 84`,
`maxDiff = 1`, a regression exactly equal to `maxDiff`, and the check passes. -/
theorem generateDiffStatusCheck_pass_iff_witness :
    0 < (85 : Rat) ∧
    (∃ d, generateDiffStatusCheck exReporter 85 84 "backend" = some d ∧
      d.pass = decide ((85 : Rat) - 84 ≤ exReporter.maxDiff)) ∧
    generateDiffStatusCheck exReporter 85 84 "backend" =
      some { pass := true
             description := "decreased from 85% to 84%"
             context := "code-coverage-backend-delta" } :=
  ⟨by norm_num,
   generateDiffStatusCheck_pass_iff exReporter 85 84 "backend" (by norm_num),
   by
    have hm : exReporter.maxDiff = 1 := rfl
    simp only [generateDiffStatusCheck, hm]
    norm_num
    constructor
    · decide
    · decide⟩

/-- C4: a `previous` value of exactly `0` is treated as "no baseline": for
every reporter, current value and type, `generateDiffStatusCheck` returns
`null`. -/
theorem generateDiffStatusCheck_zero_previous (cr : CoverageReporter)
    (current : Rat) (t : String) :
    generateDiffStatusCheck cr 0 current t = none := by
  rw [generateDiffStatusCheck, if_pos rfl]

/-- `jsOr (some c) 0 = c`: reading a present numeric entry with `|| 0` is the
identity. -/
theorem jsOr_some_zero (c : Rat) : jsOr (some c) 0 = c := by
  by_cases h : c = 0 <;> simp [jsOr, h]

/-- `jsOr (some v) d = v` when `v` is truthy. -/
theorem jsOr_some_of_ne_zero {v : Rat} (d : Rat) (h : v ≠ 0) :
    jsOr (some v) d = v := by
  simp [jsOr, h]

/-- `jsOr v d` never yields `0` when the default is nonzero. -/
theorem jsOr_ne_zero (v : Option Rat) {d : Rat} (hd : d ≠ 0) : jsOr v d ≠ 0 := by
  cases v with
  | none => simpa [jsOr] using hd
  | some x =>
    by_cases hx : x = 0
    · simpa [jsOr, hx] using hd
    · simp only [jsOr, if_neg hx]
      exact hx

/-- Constructor options whose `customThresholds` object maps `backend` to `0`. -/
def zeroBackendOptions : CROptions :=
  { emptyOptions with
    customThresholds := fun t => if t = "backend" then some 0 else none }

/-- Counterexample to C10: with `customThresholds = {backend: 0}` the
constructor stores `0` for `backend`, and `generateStatusChecks` then applies
the generic `|| 80` fallback to the known type `backend` — the effective
threshold is `80`, not the built-in `90` nor the passed `0`. -/
theorem customThreshold_zero_fallback_counterexample :
    (mkCoverageReporter zeroBackendOptions).thresholds "backend" = some 0 ∧
    thresholdOf (mkCoverageReporter zeroBackendOptions) "backend" = 80 ∧
    generateStatusChecks (mkCoverageReporter zeroBackendOptions) 85 "backend" =
      { pass := true
        description := "threshold: 80% - current: 85%"
        context := "code-coverage-backend" } := by
  exact ⟨rfl, rfl, by decide⟩

/-- C10 amended: the constructor prepopulates `backend`/`frontend`/`lambda`
with the `||`-coerced defaults `90`/`95`/`80` whenever `customThresholds` has
no entry for that name (so a passed per-type threshold of `0` is replaced by
the default), and for those three types the generic `|| 80` fallback of
`generateStatusChecks` applies only when `customThresholds` itself supplies a
falsy (`0`) entry: otherwise the stored entry is present, nonzero, and is the
effective threshold. -/
theorem thresholds_prepopulated_amended (o : CROptions) :
    (o.customThresholds "backend" = none →
      (mkCoverageReporter o).thresholds "backend" = some (jsOr o.backendThreshold 90)) ∧
    (o.customThresholds "frontend" = none →
      (mkCoverageReporter o).thresholds "frontend" = some (jsOr o.frontendThreshold 95)) ∧
    (o.customThresholds "lambda" = none →
      (mkCoverageReporter o).thresholds "lambda" = some (jsOr o.lambdaThreshold 80)) ∧
    (∀ t, (t = "backend" ∨ t = "frontend" ∨ t = "lambda") →
      o.customThresholds t ≠ some 0 →
      ∃ v, (mkCoverageReporter o).thresholds t = some v ∧ v ≠ 0 ∧
        thresholdOf (mkCoverageReporter o) t = v) := by
  have hmk : ∀ t, (mkCoverageReporter o).thresholds t = mkThresholds o t :=
    fun _ => rfl
  have base : ∀ t, o.customThresholds t = none → mkThresholds o t =
      (if t = "backend" then some (jsOr o.backendThreshold 90)
       else if t = "frontend" then some (jsOr o.frontendThreshold 95)
       else if t = "lambda" then some (jsOr o.lambdaThreshold 80)
       else none) := by
    intro t h
    rw [mkThresholds, h]
  refine ⟨?_, ?_, ?_, ?_⟩
  · intro h
    rw [hmk, base _ h, if_pos rfl]
  · intro h
    rw [hmk, base _ h, if_neg (by decide), if_pos rfl]
  · intro h
    rw [hmk, base _ h, if_neg (by decide), if_neg (by decide), if_pos rfl]
  · intro t ht hne
    have hdef : ∀ d : Rat, d ≠ 0 → ∀ v0 : Option Rat,
        ∃ v, some (jsOr v0 d) = some v ∧ v ≠ 0 ∧ jsOr (some (jsOr v0 d)) 80 = v := by
      intro d hd v0
      exact ⟨jsOr v0 d, rfl, jsOr_ne_zero v0 hd,
        jsOr_some_of_ne_zero 80 (jsOr_ne_zero v0 hd)⟩
    cases hc : o.customThresholds t with
    | some w =>
      have hw : w ≠ 0 := by
        intro h0
        exact hne (by rw [hc, h0])
      refine ⟨w, ?_, hw, ?_⟩
      · rw [hmk, mkThresholds, hc]
      · rw [thresholdOf, hmk, mkThresholds, hc]
        exact jsOr_some_of_ne_zero 80 hw
    | none =>
      rcases ht with h | h | h <;> subst h
      · have := hdef 90 (by norm_num) o.backendThreshold
        simpa [thresholdOf, hmk, base _ hc] using this
      · have := hdef 95 (by norm_num) o.frontendThreshold
        simpa [thresholdOf, hmk, base _ hc, if_neg] using this
      · have := hdef 80 (by norm_num) o.lambdaThreshold
        simpa [thresholdOf, hmk, base _ hc, if_neg] using this

/-- Witness for the amended C10 at concrete options: `backendThreshold = 0`
and no custom entries, so `backend` stores the default `90`. -/
theorem thresholds_prepopulated_amended_witness :
    ({ emptyOptions with backendThreshold := some 0 } : CROptions).customThresholds "backend" = none ∧
    (mkCoverageReporter { emptyOptions with backendThreshold := some 0 }).thresholds "backend" =
      some (jsOr (some 0) 90) ∧
    jsOr (some (0 : Rat)) 90 = 90 :=
  ⟨rfl,
   (thresholds_prepopulated_amended { emptyOptions with backendThreshold := some 0 }).1 rfl,
   by decide⟩

/-- The `config` sub-object of a parsed `.gcr.json` document, as far as
`ConfigManager.getMaxCoverageDiff` inspects it. -/
structure GcrInner where
  maxCoverageDiff : Option Rat := none

/-- A parsed `.gcr.json` document; `config = none` models a document without
a `config` key. -/
structure GcrConfig where
  config : Option GcrInner := none

/-- `ConfigManager.getMaxCoverageDiff(config)` (`src/ConfigManager.js`,
lines 96–102): `0` when the document, its `config` key, or
`config.maxCoverageDiff` is absent/`null`; otherwise the stored value,
including an explicit `0`. -/
def getMaxCoverageDiff : Option GcrConfig → Rat
  | none => 0
  | some c =>
    match c.config with
    | none => 0
    | some i => i.maxCoverageDiff.getD 0

/-- `index.js` line 58, executed when a config file was loaded:
`coverageOptions.maxDiff = coverageOptions.maxDiff || ConfigManager.getMaxCoverageDiff(this.config)` —
a `||` merge, so an explicit `coverageOptions.maxDiff` of `0` is replaced by
the config value. -/
def resolveCoverageOptionsMaxDiff (optionsMaxDiff : Option Rat)
    (cfg : GcrConfig) : Rat :=
  jsOr optionsMaxDiff (getMaxCoverageDiff (some cfg))

/-- Counterexample to C3: two code paths resolve `maxDiff` differently from
the claim.  The legacy constructor uses `options.maxDiff || 1`, so an absent
`maxDiff` resolves to `1` (not `0`) and an explicit `0` is replaced by `1`;
and the orchestrator merge replaces an explicitly supplied `0` with a
nonzero config-file value. -/
theorem maxDiff_resolution_counterexample :
    (mkLegacyCoverageReporter emptyOptions).maxDiff = 1 ∧
    (mkLegacyCoverageReporter { emptyOptions with maxDiff := some 0 }).maxDiff = 1 ∧
    resolveCoverageOptionsMaxDiff (some 0)
      { config := some { maxCoverageDiff := some 5 } } = 5 := by
  exact ⟨rfl, rfl, rfl⟩

/-- C3 amended: `ConfigManager.getMaxCoverageDiff` and the current
`CoverageReporter` constructor resolve an absent (or `null`) `maxDiff` to `0`
and preserve an explicitly supplied `0`; the legacy constructor instead
resolves via `|| 1` (absent and explicit `0` both become `1`), and the
orchestrator option/config merge uses `||`, replacing an explicit option `0`
with the config value. -/
theorem maxDiff_resolution_amended :
    (∀ o : CROptions, o.maxDiff = none → (mkCoverageReporter o).maxDiff = 0) ∧
    (∀ o : CROptions, o.maxDiff = some 0 → (mkCoverageReporter o).maxDiff = 0) ∧
    getMaxCoverageDiff none = 0 ∧
    (∀ c : GcrConfig, c.config = none → getMaxCoverageDiff (some c) = 0) ∧
    (∀ (c : GcrConfig) (i : GcrInner), c.config = some i →
      i.maxCoverageDiff = none → getMaxCoverageDiff (some c) = 0) ∧
    (∀ (c : GcrConfig) (i : GcrInner) (q : Rat), c.config = some i →
      i.maxCoverageDiff = some q → getMaxCoverageDiff (some c) = q) ∧
    (∀ o : CROptions, (mkLegacyCoverageReporter o).maxDiff = jsOr o.maxDiff 1) ∧
    (∀ (m : Option Rat) (cfg : GcrConfig),
      resolveCoverageOptionsMaxDiff m cfg = jsOr m (getMaxCoverageDiff (some cfg))) := by
  refine ⟨?_, ?_, rfl, ?_, ?_, ?_, fun _ => rfl, fun _ _ => rfl⟩
  · intro o h
    simp [mkCoverageReporter, h]
  · intro o h
    simp [mkCoverageReporter, h]
  · intro c h
    simp [getMaxCoverageDiff, h]
  · intro c i hc hi
    simp [getMaxCoverageDiff, hc, hi]
  · intro c i q hc hi
    simp [getMaxCoverageDiff, hc, hi]

/-- Witness for the amended C3 at concrete inputs: absent and explicit-zero
`maxDiff` both resolve to `0` in the current constructor. -/
theorem maxDiff_resolution_amended_witness :
    (emptyOptions.maxDiff = none ∧
      ({ emptyOptions with maxDiff := some 0 } : CROptions).maxDiff = some 0) ∧
    (mkCoverageReporter emptyOptions).maxDiff = 0 ∧
    (mkCoverageReporter { emptyOptions with maxDiff := some 0 }).maxDiff = 0 :=
  ⟨⟨rfl, rfl⟩,
   maxDiff_resolution_amended.1 emptyOptions rfl,
   maxDiff_resolution_amended.2.1 { emptyOptions with maxDiff := some 0 } rfl⟩

/-- A primitive JS value as it occurs in the configuration objects fed to
`mergeWithPriority`. -/
inductive JsPrim where
  | undefined
  | null
  | str (s : String)
  | num (q : Rat)
  | boolean (b : Bool)
deriving Repr, DecidableEq

/-- A JS object used as a string-keyed record, modelled extensionally:
`undefined` for an absent key. -/
def JsObj := String → JsPrim

/-- The guard of the `mergeWithPriority` loop (`index.js`, lines 7–16):
`second[key] !== undefined && second[key] !== null && second[key] !== ''`. -/
def overridesInMerge : JsPrim → Bool
  | .undefined => false
  | .null => false
  | .str s => decide (s ≠ "")
  | .num _ => true
  | .boolean _ => true

/-- `mergeWithPriority(first, second)` (`index.js`, lines 7–16): start from a
copy of `first`; every key of `second` whose value is defined, non-`null`
and non-empty-string overwrites the entry in the result.  Iterating the keys
of `second` and guarding on its values is extensionally the pointwise
function below. -/
def mergeWithPriority (first second : JsObj) : JsObj :=
  fun k => if overridesInMerge (second k) then second k else first k

/-- The object with no keys (`{}`). -/
def emptyJsObj : JsObj := fun _ => .undefined

/-- The GitHub helper construction in the `GitHubCoverageReporter`
constructor (`index.js`, lines 38–41):
`new GitHubHelper(mergeWithPriority(options.github || {}, githubConfig))`;
`none` models an absent `options.github`, and `githubConfig` holds the
values read from the config file. -/
def githubHelperInit (optionsGithub : Option JsObj) (githubConfig : JsObj) : JsObj :=
  mergeWithPriority (optionsGithub.getD emptyJsObj) githubConfig

/-- Explicitly passed `options.github` used by the C2 counterexample. -/
def exOptionsGithub : JsObj := fun k =>
  if k = "owner" then .str "options-owner"
  else if k = "token" then .str "options-token"
  else .undefined

/-- Config-file GitHub values used by the C2 counterexample. -/
def exGithubConfig : JsObj := fun k =>
  if k = "owner" then .str "config-owner" else .undefined

/-- Counterexample to C2: when both the explicitly passed options and the
config file define `owner` (both defined, non-`null`, non-empty), the merged
configuration carries the config-file value, not the explicitly passed one —
the options object is the first argument of `mergeWithPriority` and the
config-file values overwrite it. -/
theorem merge_config_overrides_options_counterexample :
    githubHelperInit (some exOptionsGithub) exGithubConfig "owner" =
      .str "config-owner" ∧
    JsPrim.str "config-owner" ≠ JsPrim.str "options-owner" :=
  ⟨rfl, by decide⟩

/-- C2 amended: in the merged configuration a config-file value takes
priority over the explicitly passed option for the same field, and a field
of the explicitly passed options is overridden only if the config-file value
is defined, non-`null`, and non-empty-string; otherwise the explicitly
passed value is kept. -/
theorem mergeWithPriority_amended (optionsGithub : Option JsObj)
    (cfg : JsObj) (k : String) :
    (overridesInMerge (cfg k) = true → githubHelperInit optionsGithub cfg k = cfg k) ∧
    (overridesInMerge (cfg k) = false →
      githubHelperInit optionsGithub cfg k = (optionsGithub.getD emptyJsObj) k) ∧
    (cfg k = .undefined ∨ cfg k = .null ∨ cfg k = .str "" →
      githubHelperInit optionsGithub cfg k = (optionsGithub.getD emptyJsObj) k) := by
  refine ⟨?_, ?_, ?_⟩
  · intro h
    simp [githubHelperInit, mergeWithPriority, h]
  · intro h
    simp [githubHelperInit, mergeWithPriority, h]
  · rintro (h | h | h) <;> simp [githubHelperInit, mergeWithPriority, h, overridesInMerge]

/-- Witness for the amended C2: `token` is absent from the config values, so
the explicitly passed `token` survives the merge. -/
theorem mergeWithPriority_amended_witness :
    overridesInMerge (exGithubConfig "token") = false ∧
    githubHelperInit (some exOptionsGithub) exGithubConfig "token" =
      (some exOptionsGithub).getD emptyJsObj "token" :=
  ⟨rfl,
   (mergeWithPriority_amended (some exOptionsGithub) exGithubConfig "token").2.1 rfl⟩

/-- A stored per-branch coverage snapshot: coverage type → percentage. -/
def Snapshot := String → Option Rat

/-- The snapshot with no entries (`{}`). -/
def emptySnapshot : Snapshot := fun _ => none

/-- The persisted history document: branch name → snapshot. -/
def HistoryDoc := String → Option Snapshot

/-- `GitHubCoverageReporter.updateS3Coverage(prevCoverageJson, coverageType, currentCoverage)`
(`index.js`, lines 236–253), restricted to the document it uploads:
`branchData = prevCoverageJson[branchName] || {}`,
`branchData[coverageType] = currentCoverage`,
`updatedData = {...prevCoverageJson, [branchName]: branchData}`.
The branch name comes from the `GITHUB_CURR_BRANCH` environment variable,
passed here explicitly. -/
def updateS3Coverage (prevCoverageJson : HistoryDoc)
    (branchName coverageType : String) (currentCoverage : Rat) : HistoryDoc :=
  let branchData : Snapshot := (prevCoverageJson branchName).getD emptySnapshot
  let written : Snapshot := fun t =>
    if t = coverageType then some currentCoverage else branchData t
  fun b => if b = branchName then some written else prevCoverageJson b

/-- C5: the read-modify-write `updateS3Coverage` is frame-preserving — every
branch other than the written branch `B` keeps its exact entry, every type
other than the written type `T` under `B` keeps its exact value (an absent
branch reads as the empty snapshot), and the `(B, T)` entry equals the
written value. -/
theorem updateS3Coverage_frame (doc : HistoryDoc) (B T : String) (v : Rat) :
    (∀ b, b ≠ B → updateS3Coverage doc B T v b = doc b) ∧
    (∀ t, t ≠ T →
      ((updateS3Coverage doc B T v B).getD emptySnapshot) t =
        ((doc B).getD emptySnapshot) t) ∧
    ((updateS3Coverage doc B T v B).getD emptySnapshot) T = some v := by
  refine ⟨fun b hb => ?_, fun t ht => ?_, ?_⟩
  · simp [updateS3Coverage, hb]
  · simp [updateS3Coverage, ht]
  · simp [updateS3Coverage]

/-- A concrete history document for the C5 witness: branches `main` and
`dev`, each with a `backend` entry. -/
def exHistoryDoc : HistoryDoc := fun b =>
  if b = "main" then some (fun t => if t = "backend" then some 80 else none)
  else if b = "dev" then some (fun t => if t = "backend" then some 70 else none)
  else none

/-- Witness for C5 at a concrete document: writing `(main, backend) ↦ 85`
leaves the `dev` branch entry and the value of any other type under `main`
untouched, and stores `85` at `(main, backend)`. -/
theorem updateS3Coverage_frame_witness :
    ("dev" ≠ "main" ∧ "frontend" ≠ "backend") ∧
    updateS3Coverage exHistoryDoc "main" "backend" 85 "dev" = exHistoryDoc "dev" ∧
    ((updateS3Coverage exHistoryDoc "main" "backend" 85 "main").getD emptySnapshot) "frontend" =
      ((exHistoryDoc "main").getD emptySnapshot) "frontend" ∧
    ((updateS3Coverage exHistoryDoc "main" "backend" 85 "main").getD emptySnapshot) "backend" =
      some 85 :=
  ⟨⟨by decide, by decide⟩,
   (updateS3Coverage_frame exHistoryDoc "main" "backend" 85).1 "dev" (by decide),
   (updateS3Coverage_frame exHistoryDoc "main" "backend" 85).2.1 "frontend" (by decide),
   (updateS3Coverage_frame exHistoryDoc "main" "backend" 85).2.2⟩

/-- `currentCoverage[type] || 0`: an absent entry and an entry `0` both read
as `0`. -/
def readOr0 (m : Snapshot) (t : String) : Rat := jsOr (m t) 0

/-- The inner helper `isCoverageDropWithinLimit(curr, prev)` of
`generateCoverageComment` (`src/CoverageReporter.js`, lines 27–33),
generalized over possibly-absent arguments: the warnings filter passes the
raw map entries, and when either entry is absent the JS subtraction yields
`NaN`, whose `<=` comparison with `maxDiff` is `false`. -/
def isCoverageDropWithinLimit (maxDiff : Rat) (curr prev : Option Rat) : Bool :=
  match curr, prev with
  | some c, some p => decide (p - c ≤ maxDiff)
  | _, _ => false

/-- The per-row `overallStatus` of the comment table
(`src/CoverageReporter.js`, lines 38–46): values read with `|| 0`, threshold
read with the `|| 80` fallback. -/
def rowOverallStatus (cr : CoverageReporter)
    (previousCoverage currentCoverage : Snapshot) (t : String) : Bool :=
  decide (readOr0 currentCoverage t ≥ thresholdOf cr t) &&
    isCoverageDropWithinLimit cr.maxDiff
      (some (readOr0 currentCoverage t)) (some (readOr0 previousCoverage t))

/-- The warnings filter predicate of `generateCoverageComment`
(`src/CoverageReporter.js`, lines 49–55).  Unlike the table row, the drop
check receives the raw entries (no `|| 0`), and the threshold half compares
against `this.thresholds[type]` with no `|| 80` fallback — a `<` comparison
against an absent threshold is `false`. -/
def warnCond (cr : CoverageReporter)
    (previousCoverage currentCoverage : Snapshot) (t : String) : Bool :=
  if !(isCoverageDropWithinLimit cr.maxDiff (currentCoverage t) (previousCoverage t)) then
    true
  else
    match cr.thresholds t with
    | some th => decide (readOr0 currentCoverage t < th)
    | none => false

/-- One warning line (`src/CoverageReporter.js`, line 56). -/
def warnLine (cr : CoverageReporter) (t : String) : String :=
  "⚠️ " ++ capitalize t
    ++ " coverage is below the required threshold / max allowed change of "
    ++ ratStr cr.maxDiff ++ "%."

/-- The list of warning lines appended after the table. -/
def warningLines (cr : CoverageReporter)
    (previousCoverage currentCoverage : Snapshot) (types : List String) :
    List String :=
  (types.filter (warnCond cr previousCoverage currentCoverage)).map (warnLine cr)

/-- `getChangeEmoji` (`src/CoverageReporter.js`, lines 15–19). -/
def getChangeEmoji (curr prev : Rat) : String :=
  if curr > prev then "📈" else if curr < prev then "📉" else "🔄"

/-- `getChangeText` (`src/CoverageReporter.js`, lines 21–25). -/
def getChangeText (curr prev : Rat) : String :=
  if curr = prev then "No change"
  else if curr > prev then "+" ++ toFixed2 (curr - prev) ++ "%"
  else toFixed2 (curr - prev) ++ "%"

/-- `getStatusEmoji` (`src/CoverageReporter.js`, line 35). -/
def getStatusEmoji (success : Bool) : String := if success then "✅" else "❌"

/-- One table row (`src/CoverageReporter.js`, lines 38–46). -/
def tableRow (cr : CoverageReporter)
    (previousCoverage currentCoverage : Snapshot) (t : String) : String :=
  let current := readOr0 currentCoverage t
  let previous := readOr0 previousCoverage t
  let threshold := thresholdOf cr t
  "| " ++ capitalize t ++ " | " ++ ratStr current ++ "% | " ++ ratStr previous
    ++ "% | " ++ getChangeEmoji current previous ++ " "
    ++ getChangeText current previous ++ " | " ++ ratStr threshold ++ "% | "
    ++ getStatusEmoji (rowOverallStatus cr previousCoverage currentCoverage t)
    ++ " |"

/-- `CoverageReporter.generateCoverageComment(previousCoverage, currentCoverage, coverageTypes)`
(`src/CoverageReporter.js`, lines 14–65). -/
def generateCoverageComment (cr : CoverageReporter)
    (previousCoverage currentCoverage : Snapshot) (types : List String) :
    String :=
  let tableRows :=
    String.intercalate "\n" (types.map (tableRow cr previousCoverage currentCoverage))
  let warnings := warningLines cr previousCoverage currentCoverage types
  let warningText :=
    if warnings.length > 0 then "\n\n" ++ String.intercalate "\n" warnings else ""
  "## Code Coverage Report\n\n| Coverage Type | Current | Previous | Change | Threshold | Status |\n|--------------|---------|-----------|---------|-----------|---------|\n"
    ++ tableRows ++ warningText

/-- The previous-coverage map of the C6 counterexample: empty. -/
def exPrevEmpty : Snapshot := fun _ => none

/-- The current-coverage map of the C6 counterexample: `backend ↦ 95`. -/
def exCurrBackend : Snapshot := fun t => if t = "backend" then some 95 else none

/-- The default reporter (`new CoverageReporter({})`): thresholds
`{backend: 90, frontend: 95, lambda: 80}`, `maxDiff = 0`. -/
def defaultReporter : CoverageReporter := mkCoverageReporter emptyOptions

/-- Counterexample to C6: with `previous = {}` and `current = {backend: 95}`
the `backend` row passes both the threshold check (95 ≥ 90) and the
regression check (read as 0, the drop `0 − 95` is within `maxDiff = 0`), yet
a warning line for `backend` is emitted — the warnings filter feeds the raw
absent `previous` entry into the drop check, where the JS `NaN` comparison
fails, instead of reading it as `0`. -/
theorem warnings_not_row_status_counterexample :
    rowOverallStatus defaultReporter exPrevEmpty exCurrBackend "backend" = true ∧
    warnCond defaultReporter exPrevEmpty exCurrBackend "backend" = true ∧
    warningLines defaultReporter exPrevEmpty exCurrBackend ["backend"] =
      ["⚠️ Backend coverage is below the required threshold / max allowed change of 0%."] := by
  refine ⟨?_, rfl, rfl⟩
  have h95 : readOr0 exCurrBackend "backend" = 95 := rfl
  have h0 : readOr0 exPrevEmpty "backend" = 0 := rfl
  have hth : thresholdOf defaultReporter "backend" = 90 := rfl
  have hmd : defaultReporter.maxDiff = 0 := rfl
  rw [rowOverallStatus, h95, h0, hth, hmd, isCoverageDropWithinLimit]
  norm_num

/-- C6 amended: for a type present in both coverage maps and having a
nonzero `thresholds` entry, `generateCoverageComment` emits a warning line
exactly when the table row fails (threshold check or regression check).
The claimed read-missing-as-`0` rule does not hold for the warning decision:
a type absent from either map always fails the raw drop check (see the
counterexample), and a type with no `thresholds` entry never triggers the
threshold half of the warning. -/
theorem warnCond_matches_row_amended (cr : CoverageReporter)
    (prev curr : Snapshot) (t : String) (c p th : Rat)
    (hc : curr t = some c) (hp : prev t = some p)
    (hth : cr.thresholds t = some th) (hth0 : th ≠ 0) :
    warnCond cr prev curr t = !(rowOverallStatus cr prev curr t) := by
  have hrc : readOr0 curr t = c := by rw [readOr0, hc, jsOr_some_zero]
  have hrp : readOr0 prev t = p := by rw [readOr0, hp, jsOr_some_zero]
  have hto : thresholdOf cr t = th := by
    rw [thresholdOf, hth]
    exact jsOr_some_of_ne_zero 80 hth0
  rw [warnCond, rowOverallStatus, hc, hp, hth, hrc, hrp, hto]
  simp only [isCoverageDropWithinLimit]
  by_cases hB : p - c ≤ cr.maxDiff
  · by_cases hA : c < th
    · simp [hB, hA, not_le.mpr hA]
    · simp [hB, hA, le_of_not_lt hA]
  · simp [hB]

/-- The previous-coverage map of the C6 witness: `backend ↦ 80`. -/
def exPrevBackend : Snapshot := fun t => if t = "backend" then some 80 else none

/-- Witness for the amended C6 at a concrete instance: `backend` present in
both maps with a nonzero threshold, and the warning decision is exactly the
negated row status. -/
theorem warnCond_matches_row_amended_witness :
    (exCurrBackend "backend" = some 95 ∧ exPrevBackend "backend" = some 80 ∧
      defaultReporter.thresholds "backend" = some 90 ∧ (90 : Rat) ≠ 0) ∧
    warnCond defaultReporter exPrevBackend exCurrBackend "backend" =
      !(rowOverallStatus defaultReporter exPrevBackend exCurrBackend "backend") :=
  ⟨⟨rfl, rfl, rfl, by norm_num⟩,
   warnCond_matches_row_amended defaultReporter exPrevBackend exCurrBackend
     "backend" 95 80 90 rfl rfl rfl (by norm_num)⟩

/-- A parsed JSON value, as far as the coverage parser inspects it. -/
inductive Js where
  | null
  | num (q : Rat)
  | str (s : String)
  | boolean (b : Bool)
  | obj (fields : List (String × Js))

/-- Property lookup on the field list of a JSON object: `none` models
`undefined` for a missing property. -/
def lookupField (fields : List (String × Js)) (k : String) : Option Js :=
  (fields.find? (fun f => f.1 = k)).map (fun f => f.2)

/-- Helper for `splitOnDot`: structural recursion over the characters, with
the (reversed) current segment as accumulator. -/
def splitCharsOnDot : List Char → List Char → List String
  | [], acc => [String.mk acc.reverse]
  | c :: rest, acc =>
    if c = '.' then String.mk acc.reverse :: splitCharsOnDot rest []
    else splitCharsOnDot rest (c :: acc)

/-- JS `path.split('.')`. -/
def splitOnDot (s : String) : List String := splitCharsOnDot s.data []

/-- `CoverageParser.getNestedValue(obj, path)` (`src/CoverageParser.js`,
lines 150–162): split the dotted path and reduce; a `null`/`undefined`
intermediate short-circuits to `undefined`, a property read on any other
primitive yields `undefined`. -/
def getNestedValue (obj : Js) (path : String) : Option Js :=
  (splitOnDot path).foldl
    (fun current key =>
      match current with
      | none => none
      | some Js.null => none
      | some (Js.obj fields) => lookupField fields key
      | some _ => none)
    (some obj)

/-- The observable state of a coverage file on disk: absent, present but not
valid JSON, or present with parsed content. -/
inductive FileState where
  | absent
  | unparseable
  | json (data : Js)

/-- `CoverageParser.parseSingleFile(filePath, keyPath)` — the single-file
form used by the primary flow (`src/CoverageParser.js`, lines 132–148):
when the file exists it is parsed and the key path resolved, a parse failure
or an unresolved key path raises; when `fs.existsSync` is false the `if` is
skipped and the function falls through to `return 0`. -/
def parseSingleFile (file : FileState) (keyPath : String) : Except String Js :=
  match file with
  | FileState.absent => Except.ok (Js.num 0)
  | FileState.unparseable => Except.error "JSON parse error"
  | FileState.json data =>
    match getNestedValue data keyPath with
    | some coverage => Except.ok coverage
    | none => Except.error ("Key path not found in coverage file: " ++ keyPath)

/-- JS property read `base[k]` where `base` may be `undefined`: reading a
property of `undefined` or `null` throws (modelled as `Except.error`);
a missing property of an object, or a property of another primitive, yields
`undefined` (`none`). -/
def jsAccess : Option Js → String → Except Unit (Option Js)
  | none, _ => Except.error ()
  | some Js.null, _ => Except.error ()
  | some (Js.obj fields), k => Except.ok (lookupField fields k)
  | some _, _ => Except.ok none

/-- One iteration of the bulk `CoverageParser.parseFromFiles` form
(`src/CoverageParser.js`, lines 78–97): a missing file logs and stores `0`,
and any thrown error (JSON parse failure, property read through an
`undefined`/`null` intermediate of `data.total.statements.pct`) is caught
and stores `0`; otherwise the raw looked-up value is stored. -/
def parseFromFilesEntry (file : FileState) : Option Js :=
  match file with
  | FileState.absent => some (Js.num 0)
  | FileState.unparseable => some (Js.num 0)
  | FileState.json data =>
    match (do
        let t ← jsAccess (some data) "total"
        let s ← jsAccess t "statements"
        jsAccess s "pct") with
    | Except.error _ => some (Js.num 0)
    | Except.ok r => r

/-- Counterexample to C7: in the single-file form a missing coverage file
does not raise — `parseSingleFile` returns the value `0` (the trailing
`return 0` after the skipped `existsSync` branch), silently converting the
missing file to a value. -/
theorem parseSingleFile_missing_counterexample :
    parseSingleFile FileState.absent "total.statements.pct" =
      Except.ok (Js.num 0) := rfl

/-- C7 amended: the single-file form returns `0` when the file is absent and
raises when the file exists but cannot be parsed or when the key path does
not resolve, while the bulk form substitutes `0` both for a missing and for
an unparseable file. -/
theorem parseSingleFile_and_bulk_amended :
    (∀ kp, parseSingleFile FileState.absent kp = Except.ok (Js.num 0)) ∧
    (∀ kp, parseSingleFile FileState.unparseable kp =
      Except.error "JSON parse error") ∧
    (∀ data kp, getNestedValue data kp = none →
      parseSingleFile (FileState.json data) kp =
        Except.error ("Key path not found in coverage file: " ++ kp)) ∧
    parseFromFilesEntry FileState.absent = some (Js.num 0) ∧
    parseFromFilesEntry FileState.unparseable = some (Js.num 0) := by
  refine ⟨fun _ => rfl, fun _ => rfl, fun data kp h => ?_, rfl, rfl⟩
  rw [parseSingleFile, h]

/-- Witness for the amended C7: the empty JSON object resolves no key path,
so the single-file form raises the key-path error on it. -/
theorem parseSingleFile_and_bulk_amended_witness :
    getNestedValue (Js.obj []) "total.statements.pct" = none ∧
    parseSingleFile (FileState.json (Js.obj [])) "total.statements.pct" =
      Except.error
        ("Key path not found in coverage file: " ++ "total.statements.pct") :=
  ⟨rfl,
   parseSingleFile_and_bulk_amended.2.2.1 (Js.obj []) "total.statements.pct" rfl⟩

/-- The resolved feature toggles of a run (`this.options` in `index.js`). -/
structure RunFlags where
  addComments : Bool
  setStatusChecks : Bool
  storeInS3 : Bool

/-- The open pull request as the orchestrator uses it: its number and the
base branch ref. -/
structure PullRequest where
  number : Nat
  baseRef : String

/-- The environment of one orchestrator run, abstracting the remote
collaborators: the result of `githubHelper.fetchPR()`, whether an S3 helper
is configured, the stored history blob, and the per-type current value
obtained by `parseCoverageFromFile` (assumed to succeed). -/
structure RunEnv where
  fetchPR : Option PullRequest
  s3Present : Bool
  history : HistoryDoc
  current : String → Rat

/-- The observable outcome of the multi-type branch of
`GitHubCoverageReporter.run`: the returned maps, which types had
`setStatusChecks` invoked, which types were written to S3, whether a PR
comment was posted, and whether the previous-coverage history blob was
fetched. -/
structure MultiRunResult where
  currentCoverage : List (String × Rat)
  previousCoverage : List (String × Rat)
  statusChecked : List String
  s3StoredTypes : List String
  commentPosted : Bool
  prevHistoryFetched : Bool
  prNumber : Option Nat

/-- The multi-type branch of `GitHubCoverageReporter.run` (`index.js`,
lines 78–116): the PR is fetched once if comments or status checks are
enabled; the history blob for previous values is fetched only when an S3
helper exists and a PR was found; `branchData` is the base-branch snapshot
or `{}`; per type, the previous value is `branchData[type] || 0`, status
checks run when enabled, and the S3 store runs when enabled; the merged
comment is posted only when comments are enabled, a PR was found, and
`options.addComment !== false`. -/
def runMultiType (flags : RunFlags) (env : RunEnv) (coverageTypes : List String)
    (addCommentOpt : Option Bool) : MultiRunResult :=
  let pr : Option PullRequest :=
    if flags.addComments || flags.setStatusChecks then env.fetchPR else none
  let prevHistoryFetched := env.s3Present && pr.isSome
  let prevCoverageJson : HistoryDoc :=
    if prevHistoryFetched then env.history else fun _ => none
  let branchData : Snapshot :=
    match pr.map PullRequest.baseRef with
    | some b => (prevCoverageJson b).getD emptySnapshot
    | none => emptySnapshot
  { currentCoverage := coverageTypes.map fun t => (t, env.current t)
    previousCoverage := coverageTypes.map fun t => (t, jsOr (branchData t) 0)
    statusChecked := if flags.setStatusChecks then coverageTypes else []
    s3StoredTypes := if flags.storeInS3 && env.s3Present then coverageTypes else []
    commentPosted := flags.addComments && pr.isSome &&
      (match addCommentOpt with
       | some false => false
       | _ => true)
    prevHistoryFetched := prevHistoryFetched
    prNumber := pr.map PullRequest.number }

/-- C8: in a multi-type run where no open PR is found, every requested type
maps to previous coverage `0`, the history lookup for previous values is
skipped entirely, no comment is posted, and `setStatusChecks` (which
attempts the threshold and the delta check) is still invoked for every type
whenever status checks are enabled. -/
theorem runMultiType_no_pr (flags : RunFlags) (env : RunEnv)
    (types : List String) (aco : Option Bool) (h : env.fetchPR = none) :
    (runMultiType flags env types aco).previousCoverage =
      types.map (fun t => (t, (0 : Rat))) ∧
    (runMultiType flags env types aco).commentPosted = false ∧
    (runMultiType flags env types aco).statusChecked =
      (if flags.setStatusChecks then types else []) ∧
    (runMultiType flags env types aco).prevHistoryFetched = false := by
  have hpr : (if flags.addComments || flags.setStatusChecks then env.fetchPR
      else none) = none := by
    rw [h, ite_self]
  refine ⟨?_, ?_, rfl, ?_⟩
  · simp only [runMultiType, hpr]
    simp [emptySnapshot, jsOr]
  · simp only [runMultiType, hpr]
    simp
  · simp only [runMultiType, hpr]
    simp

/-- The run environment of the C8 witness: no open PR, an S3 helper present,
a nonempty stored history, and concrete current values. -/
def exRunEnv : RunEnv :=
  { fetchPR := none
    s3Present := true
    history := exHistoryDoc
    current := fun t => if t = "backend" then 88 else 92 }

/-- All feature toggles on. -/
def allFlags : RunFlags :=
  { addComments := true, setStatusChecks := true, storeInS3 := true }

/-- Witness for C8: a concrete two-type run with no PR found. -/
theorem runMultiType_no_pr_witness :
    exRunEnv.fetchPR = none ∧
    ((runMultiType allFlags exRunEnv ["backend", "frontend"] none).previousCoverage =
        ["backend", "frontend"].map (fun t => (t, (0 : Rat))) ∧
      (runMultiType allFlags exRunEnv ["backend", "frontend"] none).commentPosted = false ∧
      (runMultiType allFlags exRunEnv ["backend", "frontend"] none).statusChecked =
        (if allFlags.setStatusChecks then ["backend", "frontend"] else []) ∧
      (runMultiType allFlags exRunEnv ["backend", "frontend"] none).prevHistoryFetched = false) :=
  ⟨rfl, runMultiType_no_pr allFlags exRunEnv ["backend", "frontend"] none rfl⟩
